import Mathlib

/-!
Shallow embedding of the bosqueTriangle parcel pipeline (src/scraper.py and
src/web_server.py) and proofs about the behaviours its specification claims.

Modelling conventions:
* Python scalar values are modelled by `PyVal`; Python floats are modelled by
  rationals (ℚ), which makes the acreage sums exact.
* A raw property mapping (a Python dict) is an association list with the
  first-match lookup; dict insertion order is the list order.
* The HTTP layer is abstracted by oracles: the retry loop of
  `query_arcgis_layer` receives the outcome of each attempt, and the pagination
  loop of `scrape` receives the page (or failure) returned for each offset.
  Blocking sleeps are recorded as data rather than performed.
-/

/-- A Python scalar value as it can occur in a feature's property mapping. -/
inductive PyVal where
  | none
  | str (s : String)
  | int (n : Int)
  | float (q : ℚ)
  | bool (b : Bool)
deriving DecidableEq, Repr

/-- Python `str()` on a scalar value (the rendering of numbers is a modelling
approximation; the pipeline only feeds the result to substring checks and to
`float()`). -/
def pyStr : PyVal → String
  | PyVal.none => "None"
  | PyVal.str s => s
  | PyVal.int n => toString n
  | PyVal.float q => toString q
  | PyVal.bool b => if b then "True" else "False"

/-- A raw property mapping: Python dict of property key to scalar value. -/
abbrev PropMap := List (String × PyVal)

/-- Python `key in properties` / `properties[key]`: first-match lookup. -/
def propLookup (properties : PropMap) (key : String) : Option PyVal :=
  List.lookup key properties

/-- The slice of config.json the pipeline reads: `field_mappings` (logical
field name to ordered alias list), `max_records_per_request` and
`retry_attempts`.  Rate-limit and timeout values do not affect any claim. -/
structure Config where
  field_mappings : String → List String
  max_records : Nat
  retry_attempts : Nat

/-- The alias scan inside `ParcelScraper.get_field_value`: walk the alias list,
and at the first key present in the mapping return `str(value)` for a non-None
value and Python `None` for a None value. -/
def resolveField (properties : PropMap) : List String → Option String
  | [] => Option.none
  | name :: rest =>
    match propLookup properties name with
    | some PyVal.none => Option.none
    | some v => some (pyStr v)
    | Option.none => resolveField properties rest

/-- `ParcelScraper.get_field_value(properties, field_type)`. -/
def get_field_value (cfg : Config) (properties : PropMap) (field_type : String) :
    Option String :=
  resolveField properties (cfg.field_mappings field_type)

/-- Specification-side helper: the first alias (in configured order) that is
present in the mapping, together with its raw value. -/
def firstPresent (properties : PropMap) : List String → Option (String × PyVal)
  | [] => Option.none
  | name :: rest =>
    match propLookup properties name with
    | some v => some (name, v)
    | Option.none => firstPresent properties rest

/-- Python `str.lower()` (ASCII case folding suffices for the keyword sets). -/
def pyLower (s : String) : String := String.mk (s.toList.map Char.toLower)

/-- Python substring containment `needle in hay` on character lists. -/
def listContainsSub (needle hay : List Char) : Bool :=
  (List.range (hay.length + 1)).any
    (fun i => decide ((hay.drop i).take needle.length = needle))

/-- Python substring containment `needle in hay` on strings. -/
def strContains (hay needle : String) : Bool :=
  listContainsSub needle.toList hay.toList

/-- Owner keywords checked by `determine_parcel_status`. -/
def solar_keywords : List String :=
  ["solar", "energy", "renewable", "power", "electric utility"]

/-- Legal-description keywords checked by `determine_parcel_status`. -/
def lease_keywords : List String := ["lease", "option"]

/-- `ParcelScraper.determine_parcel_status(properties)`: solar-owner check
first, then lease keywords in the legal description, else open land. -/
def determine_parcel_status (cfg : Config) (properties : PropMap) : String :=
  let owner := (get_field_value cfg properties "owner").getD ""
  let owner_lower := pyLower owner
  if solar_keywords.any (fun k => strContains owner_lower k) then
    "solar_developed"
  else
    let legal_desc := (get_field_value cfg properties "legal_description").getD ""
    if lease_keywords.any (fun k => strContains (pyLower legal_desc) k) then
      "active_lease"
    else
      "open"

/-- A config with the alias lists the spec's examples use. -/
def demoConfig : Config where
  field_mappings ft :=
    if ft = "owner" then ["OWNER_NAME", "Owner"]
    else if ft = "legal_description" then ["LEGAL_DESC", "legal_description"]
    else if ft = "parcel_id" then ["PROP_ID", "PARCEL_ID"]
    else if ft = "acreage" then ["ACREAGE", "Acres"]
    else if ft = "subdivision" then ["SUBDIVISION", "ABST_SUBD_NAME"]
    else []
  max_records := 50
  retry_attempts := 3

/-- Numeric value of a digit list, most significant first. -/
def digitsVal (cs : List Char) : Nat :=
  cs.foldl (fun a c => a * 10 + (c.toNat - 48)) 0

/-- A non-empty all-digit character list, parsed to a natural number. -/
def parseDigits (cs : List Char) : Option Nat :=
  if cs ≠ [] ∧ cs.all Char.isDigit then some (digitsVal cs) else Option.none

/-- Exponent part of a float literal: optional sign followed by digits. -/
def parseExp (cs : List Char) : Option Int :=
  match cs with
  | '+' :: rest => (parseDigits rest).map Int.ofNat
  | '-' :: rest => (parseDigits rest).map (fun n => -(n : Int))
  | _ => (parseDigits cs).map Int.ofNat

/-- Mantissa of a float literal: `digits`, `digits.digits`, `digits.` or
`.digits`. -/
def parseMantissa (cs : List Char) : Option ℚ :=
  match cs.splitOn '.' with
  | [ip] => (parseDigits ip).map (fun n => (n : ℚ))
  | [ip, fp] =>
    if (ip ≠ [] ∨ fp ≠ []) ∧ ip.all Char.isDigit ∧ fp.all Char.isDigit then
      some ((digitsVal ip : ℚ) + (digitsVal fp : ℚ) / 10 ^ fp.length)
    else Option.none
  | _ => Option.none

/-- Unsigned float literal, with an optional `e`-exponent. -/
def pyFloatNoSign (cs : List Char) : Option ℚ :=
  match cs.splitOn 'e' with
  | [m] => parseMantissa m
  | [m, e] => do
    let mv ← parseMantissa m
    let ev ← parseExp e
    some (mv * (10 : ℚ) ^ ev)
  | _ => Option.none

/-- Whitespace stripped by Python `float()` around a literal. -/
def isPySpace (c : Char) : Bool :=
  c = ' ' || c = '\t' || c = '\n' || c = '\r' || c = '\x0b' || c = '\x0c'

/-- Strip surrounding whitespace from a character list. -/
def trimChars (cs : List Char) : List Char :=
  ((cs.dropWhile isPySpace).reverse.dropWhile isPySpace).reverse

/-- Python `float(s)` on a string, modelled over ℚ: optional surrounding
whitespace, optional sign, decimal mantissa, optional exponent.  Returns
`Option.none` where Python raises `ValueError`.  (`inf`/`nan` literals have no
ℚ counterpart and are out of scope; no claim involves them.) -/
def pyFloat (s : String) : Option ℚ :=
  match (trimChars s.toList).map Char.toLower with
  | '+' :: rest => pyFloatNoSign rest
  | '-' :: rest => (pyFloatNoSign rest).map Neg.neg
  | cs => pyFloatNoSign cs

/-- Python `x or d` where `x` is an optional string: `None` and the empty
string are falsy, so both fall back to the default. -/
def orDefault (v : Option String) (d : String) : String :=
  match v with
  | some s => if s = "" then d else s
  | Option.none => d

/-- One GeoJSON feature as the scraper consumes it: the raw property mapping
plus an opaque geometry blob (`feature.get('geometry')`). -/
structure RawFeature where
  properties : PropMap
  geometry : Option PyVal
deriving DecidableEq, Repr

/-- The nested owner record of a parsed parcel. -/
structure Owner where
  name : String
  mailing_address : String
deriving DecidableEq, Repr

/-- A normalized parcel, the dict built by `ParcelScraper.parse_parcel`. -/
structure Parcel where
  parcel_id : String
  owner : Owner
  situs_address : String
  legal_description : String
  subdivision : String
  acreage : ℚ
  market_value : String
  status : String
  geometry : Option PyVal
  raw_properties : PropMap
deriving DecidableEq, Repr

/-- `ParcelScraper.parse_parcel(feature)`: field extraction with sentinel
defaults, acreage coercion through `float()` with fallback 0.0, status
classification, and raw-property pass-through. -/
def parse_parcel (cfg : Config) (feature : RawFeature) : Parcel :=
  let properties := feature.properties
  let parcel_id := orDefault (get_field_value cfg properties "parcel_id") "UNKNOWN"
  let owner := orDefault (get_field_value cfg properties "owner") "Unknown Owner"
  let acreage_str := orDefault (get_field_value cfg properties "acreage") "0"
  let acreage := (pyFloat acreage_str).getD 0
  let subdivision := orDefault (get_field_value cfg properties "subdivision") "Unplatted"
  let situs_address := orDefault (get_field_value cfg properties "situs_address") ""
  let legal_desc := orDefault (get_field_value cfg properties "legal_description") ""
  let market_value := orDefault (get_field_value cfg properties "market_value") "0"
  let owner_address := orDefault (get_field_value cfg properties "owner_address") ""
  { parcel_id := parcel_id
    owner := { name := owner, mailing_address := owner_address }
    situs_address := situs_address
    legal_description := legal_desc
    subdivision := subdivision
    acreage := acreage
    market_value := market_value
    status := determine_parcel_status cfg properties
    geometry := feature.geometry
    raw_properties := properties }

/-- One subdivision group as built by `ParcelScraper.group_by_plat`. -/
structure Plat where
  name : String
  total_parcels : Nat
  total_acreage : ℚ
  solar_developed : Nat
  active_leases : Nat
  open_land : Nat
  parcels : List Parcel
deriving DecidableEq, Repr

/-- The fresh dict inserted when a subdivision name is seen for the first
time. -/
def newPlat (name : String) : Plat :=
  { name := name, total_parcels := 0, total_acreage := 0, solar_developed := 0,
    active_leases := 0, open_land := 0, parcels := [] }

/-- The per-parcel update of `group_by_plat`: append the parcel and bump the
count, acreage and status tallies. -/
def addToPlat (pl : Plat) (p : Parcel) : Plat :=
  { pl with
    parcels := pl.parcels ++ [p]
    total_parcels := pl.total_parcels + 1
    total_acreage := pl.total_acreage + p.acreage
    solar_developed :=
      if p.status = "solar_developed" then pl.solar_developed + 1
      else pl.solar_developed
    active_leases :=
      if p.status ≠ "solar_developed" ∧ p.status = "active_lease" then
        pl.active_leases + 1
      else pl.active_leases
    open_land :=
      if p.status ≠ "solar_developed" ∧ p.status ≠ "active_lease" then
        pl.open_land + 1
      else pl.open_land }

/-- Route one parcel into the plat list: Python dict update keyed by
`parcel['subdivision']`, with new keys appended at the end (dict insertion
order). -/
def insertParcel : List Plat → Parcel → List Plat
  | [], p => [addToPlat (newPlat p.subdivision) p]
  | pl :: rest, p =>
    if pl.name = p.subdivision then addToPlat pl p :: rest
    else pl :: insertParcel rest p

/-- `ParcelScraper.group_by_plat()`: rebuild the plat dict from scratch by a
pass over the parcel list. -/
def group_by_plat (parcels : List Parcel) : List Plat :=
  parcels.foldl insertParcel []

/-- The statistics dict of `ParcelScraper.calculate_statistics`. -/
structure Stats where
  total_parcels : Nat
  solar_developed : Nat
  active_leases : Nat
  open_land : Nat
  total_acreage : ℚ
  solar_acreage : ℚ
  lease_acreage : ℚ
  open_acreage : ℚ
deriving DecidableEq, Repr

/-- One loop iteration of `calculate_statistics`. -/
def statsStep (s : Stats) (p : Parcel) : Stats :=
  let s := { s with total_acreage := s.total_acreage + p.acreage }
  if p.status = "solar_developed" then
    { s with solar_developed := s.solar_developed + 1,
             solar_acreage := s.solar_acreage + p.acreage }
  else if p.status = "active_lease" then
    { s with active_leases := s.active_leases + 1,
             lease_acreage := s.lease_acreage + p.acreage }
  else
    { s with open_land := s.open_land + 1,
             open_acreage := s.open_acreage + p.acreage }

/-- `ParcelScraper.calculate_statistics()`: total_parcels is set up front to
`len(self.parcels)`, everything else accumulates over the parcel list. -/
def calculate_statistics (parcels : List Parcel) : Stats :=
  parcels.foldl statsStep
    { total_parcels := parcels.length, solar_developed := 0, active_leases := 0,
      open_land := 0, total_acreage := 0, solar_acreage := 0, lease_acreage := 0,
      open_acreage := 0 }

/-- Outcome of one HTTP attempt inside `query_arcgis_layer`: a 200 response
whose parsed body carries the given feature list, a non-200 status code, or a
`requests.RequestException`. -/
inductive AttemptOutcome where
  | httpOk (features : List RawFeature)
  | httpErr (code : Nat)
  | netErr
deriving DecidableEq, Repr

/-- What one call of `query_arcgis_layer` did: its return value, how many
attempts it executed, and the durations (seconds) of the backoff sleeps it
performed, in order. -/
structure QueryTrace where
  result : Option (List RawFeature)
  attemptsMade : Nat
  sleeps : List Nat
deriving DecidableEq, Repr

/-- The retry loop of `query_arcgis_layer`, driven by an oracle giving each
attempt's outcome; `remaining` is the number of loop iterations left
(`retry_attempts - attempt`).  A 200 response returns immediately; a non-200
status just falls through to the next attempt; a transport error sleeps
`2^attempt` seconds first, except after the final attempt. -/
def queryGo (outcomes : Nat → AttemptOutcome) (total : Nat) :
    Nat → Nat → QueryTrace
  | _, 0 => { result := Option.none, attemptsMade := 0, sleeps := [] }
  | attempt, r + 1 =>
    match outcomes attempt with
    | AttemptOutcome.httpOk features =>
      { result := some features, attemptsMade := 1, sleeps := [] }
    | AttemptOutcome.httpErr _ =>
      let rest := queryGo outcomes total (attempt + 1) r
      { rest with attemptsMade := rest.attemptsMade + 1 }
    | AttemptOutcome.netErr =>
      let rest := queryGo outcomes total (attempt + 1) r
      { result := rest.result
        attemptsMade := rest.attemptsMade + 1
        sleeps :=
          if attempt + 1 < total then 2 ^ attempt :: rest.sleeps
          else rest.sleeps }

/-- `ParcelScraper.query_arcgis_layer` for one page: run up to
`retry_attempts` attempts starting at attempt 0. -/
def query_arcgis_layer (retry_attempts : Nat)
    (outcomes : Nat → AttemptOutcome) : QueryTrace :=
  queryGo outcomes retry_attempts 0 retry_attempts

/-- Result of the pagination loop in `ParcelScraper.scrape`: success with the
accumulated parcels, failure (`query_arcgis_layer` returned `None`), or fuel
exhaustion of the model (the Python loop would still be running).  Both
terminating constructors record the offsets requested, in order. -/
inductive ScrapeResult where
  | ok (parcels : List Parcel) (reqs : List Nat)
  | failed (reqs : List Nat)
  | fuelOut
deriving DecidableEq, Repr

/-- The `while True` pagination loop of `ParcelScraper.scrape`, driven by an
oracle `fetch` mapping an offset to the page `query_arcgis_layer` returned for
it (`Option.none` = fetch failure).  Empty page: stop with what was
accumulated; short page: consume it and stop; full page: advance the offset by
the page size and continue. -/
def scrapeLoop (cfg : Config) (fetch : Nat → Option (List RawFeature)) :
    Nat → Nat → List Parcel → List Nat → ScrapeResult
  | 0, _, _, _ => ScrapeResult.fuelOut
  | fuel + 1, offset, acc, reqs =>
    match fetch offset with
    | Option.none => ScrapeResult.failed (reqs ++ [offset])
    | some features =>
      if features.isEmpty then ScrapeResult.ok acc (reqs ++ [offset])
      else
        let acc2 := acc ++ features.map (parse_parcel cfg)
        if features.length < cfg.max_records then
          ScrapeResult.ok acc2 (reqs ++ [offset])
        else scrapeLoop cfg fetch fuel (offset + cfg.max_records) acc2
          (reqs ++ [offset])

/-- `ParcelScraper.scrape`: the pagination loop started at offset 0 with
nothing accumulated. -/
def scrape (cfg : Config) (fetch : Nat → Option (List RawFeature))
    (fuel : Nat) : ScrapeResult :=
  scrapeLoop cfg fetch fuel 0 [] []

/-- Number of parcels a scrape produced, when it succeeded. -/
def scrapeParcelCount : ScrapeResult → Option Nat
  | ScrapeResult.ok parcels _ => some parcels.length
  | _ => Option.none

/-- Offsets requested by a terminated scrape. -/
def scrapeReqs : ScrapeResult → List Nat
  | ScrapeResult.ok _ reqs => reqs
  | ScrapeResult.failed reqs => reqs
  | ScrapeResult.fuelOut => []

/-- `main()` of scraper.py: run the scrape; on failure return exit code 1
having written nothing; on success export the JSON, GeoJSON and CSV files and
return exit code 0.  The pair is (exit code, files written); `Option.none`
stands for a run the fuel did not cover. -/
def mainRun (cfg : Config) (fetch : Nat → Option (List RawFeature))
    (fuel : Nat) : Option (Nat × List String) :=
  match scrape cfg fetch fuel with
  | ScrapeResult.fuelOut => Option.none
  | ScrapeResult.failed _ => some (1, [])
  | ScrapeResult.ok _ _ =>
    some (0, ["bosque_parcels_<ts>.json", "bosque_parcels_<ts>.geojson",
              "bosque_plat_summary_<ts>.csv"])

/-- One file of the `output/` directory as the web server sees it: name,
modification time, content. -/
structure FileEntry where
  name : String
  mtime : Nat
  content : String
deriving DecidableEq, Repr

/-- `Path.glob` for the patterns used by web_server.py, all of the shape
`<stem>*<ext>`: the name starts with `pre`, ends with `suf`, and is long
enough that the two parts do not overlap. -/
def globMatch (pre suf n : String) : Bool :=
  let nc := n.toList
  decide (nc.take pre.length = pre.toList) &&
    decide (nc.drop (nc.length - suf.length) = suf.toList) &&
    decide (pre.length + suf.length ≤ nc.length)

/-- One step of Python `max(files, key=lambda p: p.stat().st_mtime)`: keep the
incumbent unless the new entry is strictly more recent (so ties keep the first
maximal entry, as Python's `max` does). -/
def pickLater (best : Option FileEntry) (f : FileEntry) : Option FileEntry :=
  match best with
  | Option.none => some f
  | some b => if b.mtime < f.mtime then some f else some b

/-- Python `max(files, key=lambda p: p.stat().st_mtime)`: the first entry of
maximal mtime, `Option.none` on an empty list (where Python raises). -/
def maxByMtime (files : List FileEntry) : Option FileEntry :=
  files.foldl pickLater Option.none

/-- The glob `output_dir.glob('bosque_parcels_*.geojson')` applied to one
name. -/
def bosqueGlob (f : FileEntry) : Bool :=
  globMatch "bosque_parcels_" ".geojson" f.name

/-- The glob `output_dir.glob('test_parcels_*.geojson')` applied to one
name. -/
def testGlob (f : FileEntry) : Bool :=
  globMatch "test_parcels_" ".geojson" f.name

/-- `get_latest_geojson()` of web_server.py.  The directory is `Option.none`
when `output/` does not exist; otherwise a listing of its files. -/
def get_latest_geojson (output_dir : Option (List FileEntry)) :
    Option FileEntry :=
  match output_dir with
  | Option.none => Option.none
  | some files =>
    let g1 := files.filter bosqueGlob
    let g2 := if g1.isEmpty then files.filter testGlob else g1
    if g2.isEmpty then Option.none else maxByMtime g2

/-- An HTTP response of the viewer API: 200 with a body, or 404 with the
`error` and `message` fields of the JSON error body. -/
inductive ApiResponse where
  | ok (body : String)
  | notFound (error message : String)
deriving DecidableEq, Repr

/-- `GET /api/parcels` (`get_parcels()` of web_server.py). -/
def get_parcels (output_dir : Option (List FileEntry)) : ApiResponse :=
  match get_latest_geojson output_dir with
  | Option.none =>
    ApiResponse.notFound "No parcel data available"
      "Run scraper.py or test_scraper.py first to generate data"
  | some f => ApiResponse.ok f.content

/-- Modelled from the claim wording of C9: return the content of the most
recently modified matching GeoJSON export file among ALL exported GeoJSON
files (both `bosque_parcels_*.geojson` and `test_parcels_*.geojson`), or the
404 error body when none exists. -/
def claimed_get_parcels (output_dir : Option (List FileEntry)) : ApiResponse :=
  match output_dir with
  | Option.none =>
    ApiResponse.notFound "No parcel data available"
      "Run scraper.py or test_scraper.py first to generate data"
  | some files =>
    let allGeo := files.filter (fun f => bosqueGlob f || testGlob f)
    match maxByMtime allGeo with
    | Option.none =>
      ApiResponse.notFound "No parcel data available"
        "Run scraper.py or test_scraper.py first to generate data"
    | some f => ApiResponse.ok f.content

/-- The solar-owner test of `determine_parcel_status`, on the resolved owner
text. -/
def solarHit (owner : String) : Bool :=
  solar_keywords.any (fun k => strContains (pyLower owner) k)

/-- The lease test of `determine_parcel_status`, on the resolved legal
description. -/
def leaseHit (legal_desc : String) : Bool :=
  lease_keywords.any (fun k => strContains (pyLower legal_desc) k)

/-- A feature with no properties, used to build concrete pages. -/
def blankFeature : RawFeature := { properties := [], geometry := Option.none }

/-- Page oracle: offset 0 holds exactly 50 features, offset 50 is empty. -/
def fetchFull50 : Nat → Option (List RawFeature) := fun off =>
  if off = 0 then some (List.replicate 50 blankFeature)
  else if off = 50 then some [] else Option.none

/-- Page oracle: offset 0 holds 30 features; nothing else is ever served. -/
def fetch30 : Nat → Option (List RawFeature) := fun off =>
  if off = 0 then some (List.replicate 30 blankFeature) else Option.none

/-- The C5 invariant of a single plat, relative to the list of parcels
consumed so far: the tallies match the member list, the member list is
nonempty, and it is exactly the consumed parcels of that subdivision in their
original order. -/
def PlatOK (consumed : List Parcel) (pl : Plat) : Prop :=
  pl.total_parcels = pl.parcels.length ∧
  pl.total_acreage = (pl.parcels.map Parcel.acreage).sum ∧
  pl.parcels ≠ [] ∧
  pl.parcels = consumed.filter (fun q => q.subdivision == pl.name)

/-- The C5 invariant of the whole plat list: names are pairwise distinct,
every consumed parcel has a plat, and every plat satisfies `PlatOK`. -/
def GroupOK (consumed : List Parcel) (plats : List Plat) : Prop :=
  List.Pairwise (fun a b => a.name ≠ b.name) plats ∧
  (∀ q ∈ consumed, ∃ pl ∈ plats, pl.name = q.subdivision) ∧
  ∀ pl ∈ plats, PlatOK consumed pl

/-- Attempt outcomes that count as failed attempts: a non-200 HTTP status or a
transport error. -/
def isFailure : AttemptOutcome → Bool
  | AttemptOutcome.httpOk _ => false
  | AttemptOutcome.httpErr _ => true
  | AttemptOutcome.netErr => true

/-! ### Lemmas about the field resolver -/

theorem resolveField_eq_firstPresent (props : PropMap) (aliases : List String) :
    resolveField props aliases =
      (firstPresent props aliases).bind
        (fun nv =>
          match nv.2 with
          | PyVal.none => Option.none
          | v => some (pyStr v)) := by
  induction aliases with
  | nil => rfl
  | cons n rest ih =>
    unfold resolveField firstPresent
    cases h : propLookup props n with
    | none => simpa using ih
    | some v => cases v <;> rfl

theorem firstPresent_nil_props (aliases : List String) :
    firstPresent [] aliases = Option.none := by
  induction aliases with
  | nil => rfl
  | cons n rest ih => simpa [firstPresent, propLookup] using ih

/-- C6: `get_field_value` returns the value of the first configured alias key
present in the mapping coerced to a string, `Option.none` when no alias key is
present or the mapping is empty, and it is a total function (the embedding
returns without raising on every input); given aliases
`["OWNER_NAME", "Owner"]` and a mapping holding only `Owner: "Bob"` it
returns `"Bob"`. -/
theorem C6_field_resolver (cfg : Config) (props : PropMap)
    (field_type : String) :
    (firstPresent props (cfg.field_mappings field_type) = Option.none →
      get_field_value cfg props field_type = Option.none) ∧
    (∀ name v,
      firstPresent props (cfg.field_mappings field_type) = some (name, v) →
      v ≠ PyVal.none →
      get_field_value cfg props field_type = some (pyStr v)) ∧
    (props = [] → get_field_value cfg props field_type = Option.none) ∧
    get_field_value demoConfig [("Owner", PyVal.str "Bob")] "owner" =
      some "Bob" := by
  refine ⟨fun h => ?_, fun name v h hv => ?_, fun h => ?_, by decide⟩
  · simp [get_field_value, resolveField_eq_firstPresent, h]
  · rw [get_field_value, resolveField_eq_firstPresent, h]
    cases v <;> simp_all
  · subst h
    simp [get_field_value, resolveField_eq_firstPresent, firstPresent_nil_props]

/-- Witness for C6 at a concrete config and mapping: the first present alias
(`OWNER_NAME`) wins and its value is returned as a string. -/
theorem C6_field_resolver_witness :
    get_field_value demoConfig
      [("OWNER_NAME", PyVal.str "Alice"), ("Owner", PyVal.str "Bob")] "owner" =
      some "Alice" :=
  (C6_field_resolver demoConfig
    [("OWNER_NAME", PyVal.str "Alice"), ("Owner", PyVal.str "Bob")]
    "owner").2.1 "OWNER_NAME" (PyVal.str "Alice") (by decide) (by decide)

/-- C10: when the first present alias key holds Python `None`,
`get_field_value` returns `None` without consulting later alias keys, even if
a later alias key is present with a non-None value. -/
theorem C10_none_value_short_circuit (cfg : Config) (props : PropMap)
    (field_type name : String) :
    (firstPresent props (cfg.field_mappings field_type) =
        some (name, PyVal.none) →
      get_field_value cfg props field_type = Option.none) ∧
    get_field_value demoConfig
      [("OWNER_NAME", PyVal.none), ("Owner", PyVal.str "Bob")] "owner" =
      Option.none := by
  refine ⟨fun h => ?_, by decide⟩
  simp [get_field_value, resolveField_eq_firstPresent, h]

/-- Witness for C10 at a concrete config and mapping: `OWNER_NAME` is present
with value `None`, `Owner` is present with `"Bob"`, and the resolver returns
`None`. -/
theorem C10_none_value_short_circuit_witness :
    get_field_value demoConfig
      [("OWNER_NAME", PyVal.none), ("Owner", PyVal.str "Bob")] "owner" =
      Option.none :=
  (C10_none_value_short_circuit demoConfig
    [("OWNER_NAME", PyVal.none), ("Owner", PyVal.str "Bob")]
    "owner" "OWNER_NAME").1 (by decide)

/-! ### Lemmas about the classifier -/

theorem determine_parcel_status_eq (cfg : Config) (props : PropMap) :
    determine_parcel_status cfg props =
      if solarHit ((get_field_value cfg props "owner").getD "") then
        "solar_developed"
      else if leaseHit ((get_field_value cfg props "legal_description").getD "")
        then "active_lease"
      else "open" := rfl

/-- C1: the classifier returns exactly one of the three statuses with
first-match-wins precedence — `solar_developed` iff a solar keyword occurs in
the owner text, else `active_lease` iff a lease keyword occurs in the legal
description, else `open`; no keyword matches the empty string, so empty or
absent inputs never match; owner `"Acme Solar LLC"` with legal description
`"10-year lease option"` classifies as `solar_developed`. -/
theorem C1_classifier (cfg : Config) (props : PropMap) :
    (determine_parcel_status cfg props = "solar_developed" ∨
      determine_parcel_status cfg props = "active_lease" ∨
      determine_parcel_status cfg props = "open") ∧
    (determine_parcel_status cfg props = "solar_developed" ↔
      solarHit ((get_field_value cfg props "owner").getD "") = true) ∧
    (determine_parcel_status cfg props = "active_lease" ↔
      solarHit ((get_field_value cfg props "owner").getD "") = false ∧
      leaseHit ((get_field_value cfg props "legal_description").getD "") =
        true) ∧
    (determine_parcel_status cfg props = "open" ↔
      solarHit ((get_field_value cfg props "owner").getD "") = false ∧
      leaseHit ((get_field_value cfg props "legal_description").getD "") =
        false) ∧
    (∀ k ∈ solar_keywords, strContains (pyLower "") k = false) ∧
    (∀ k ∈ lease_keywords, strContains (pyLower "") k = false) ∧
    determine_parcel_status demoConfig
      [("Owner", PyVal.str "Acme Solar LLC"),
       ("legal_description", PyVal.str "10-year lease option")] =
      "solar_developed" := by
  rw [determine_parcel_status_eq]
  cases hs : solarHit ((get_field_value cfg props "owner").getD "") <;>
    cases hl :
      leaseHit ((get_field_value cfg props "legal_description").getD "") <;>
    simp <;> decide

/-- Witness for C1: both the owner rule and the legal-description rule match
on the spec's example record, and the owner rule wins. -/
theorem C1_classifier_witness :
    determine_parcel_status demoConfig
      [("Owner", PyVal.str "Acme Solar LLC"),
       ("legal_description", PyVal.str "10-year lease option")] =
      "solar_developed" :=
  (C1_classifier demoConfig
    [("Owner", PyVal.str "Acme Solar LLC"),
     ("legal_description", PyVal.str "10-year lease option")]).2.1.mpr
    (by decide)

/-! ### Lemmas about the parcel builder -/

/-- C7: `parse_parcel` is total (the embedding produces a parcel for every
feature), a raw acreage string that `float()` rejects yields acreage 0.0 (in
particular `"not-a-number"`), missing identifier / owner / subdivision fields
default to `"UNKNOWN"`, `"Unknown Owner"` and `"Unplatted"`, and the parcel's
`raw_properties` is the feature's full property mapping. -/
theorem C7_parse_parcel (cfg : Config) (feature : RawFeature) :
    ((parse_parcel cfg feature).raw_properties = feature.properties) ∧
    (get_field_value cfg feature.properties "parcel_id" = Option.none →
      (parse_parcel cfg feature).parcel_id = "UNKNOWN") ∧
    (get_field_value cfg feature.properties "owner" = Option.none →
      (parse_parcel cfg feature).owner.name = "Unknown Owner") ∧
    (get_field_value cfg feature.properties "subdivision" = Option.none →
      (parse_parcel cfg feature).subdivision = "Unplatted") ∧
    (∀ s, get_field_value cfg feature.properties "acreage" = some s →
      pyFloat s = Option.none → (parse_parcel cfg feature).acreage = 0) ∧
    (parse_parcel demoConfig
      { properties := [("ACREAGE", PyVal.str "not-a-number")],
        geometry := Option.none }).acreage = 0 := by
  refine ⟨rfl, fun h => ?_, fun h => ?_, fun h => ?_, fun s hs hf => ?_,
    by decide⟩
  · simp [parse_parcel, h, orDefault]
  · simp [parse_parcel, h, orDefault]
  · simp [parse_parcel, h, orDefault]
  · by_cases he : s = ""
    · subst he
      simp [parse_parcel, hs, orDefault]
      decide
    · simp [parse_parcel, hs, orDefault, he, hf]

/-- Witness for C7: on a feature whose only property is a non-numeric acreage
string, every sentinel default fires and the acreage coerces to 0. -/
theorem C7_parse_parcel_witness :
    (parse_parcel demoConfig
      { properties := [("ACREAGE", PyVal.str "not-a-number")],
        geometry := Option.none }).parcel_id = "UNKNOWN" ∧
    (parse_parcel demoConfig
      { properties := [("ACREAGE", PyVal.str "not-a-number")],
        geometry := Option.none }).acreage = 0 :=
  ⟨(C7_parse_parcel demoConfig
      { properties := [("ACREAGE", PyVal.str "not-a-number")],
        geometry := Option.none }).2.1 (by decide),
   (C7_parse_parcel demoConfig
      { properties := [("ACREAGE", PyVal.str "not-a-number")],
        geometry := Option.none }).2.2.2.2.1 "not-a-number" (by decide)
     (by decide)⟩

/-! ### Lemmas about the statistics -/

theorem statsStep_foldl (ps : List Parcel) (s : Stats) :
    ((ps.foldl statsStep s).solar_developed +
        (ps.foldl statsStep s).active_leases +
        (ps.foldl statsStep s).open_land =
      s.solar_developed + s.active_leases + s.open_land + ps.length) ∧
    ((ps.foldl statsStep s).total_acreage =
      s.total_acreage + (ps.map Parcel.acreage).sum) ∧
    ((ps.foldl statsStep s).solar_acreage +
        (ps.foldl statsStep s).lease_acreage +
        (ps.foldl statsStep s).open_acreage =
      s.solar_acreage + s.lease_acreage + s.open_acreage +
        (ps.map Parcel.acreage).sum) ∧
    ((ps.foldl statsStep s).total_parcels = s.total_parcels) := by
  induction ps generalizing s with
  | nil => simp
  | cons p rest ih =>
    obtain ⟨h1, h2, h3, h4⟩ := ih (statsStep s p)
    refine ⟨?_, ?_, ?_, ?_⟩ <;>
      simp only [List.foldl_cons, List.map_cons, List.sum_cons, h1, h2, h3, h4] <;>
      unfold statsStep <;> split_ifs <;> simp <;> ring

/-- C4: after `calculate_statistics`, the three status counts sum to
`total_parcels`, which is the number of parcels, and the three per-status
acreage sums add up exactly (acreage is modelled by rationals) to
`total_acreage`, which is the sum of the parcels' acreages. -/
theorem C4_statistics_invariant (parcels : List Parcel) :
    ((calculate_statistics parcels).solar_developed +
        (calculate_statistics parcels).active_leases +
        (calculate_statistics parcels).open_land =
      (calculate_statistics parcels).total_parcels) ∧
    ((calculate_statistics parcels).total_parcels = parcels.length) ∧
    ((calculate_statistics parcels).solar_acreage +
        (calculate_statistics parcels).lease_acreage +
        (calculate_statistics parcels).open_acreage =
      (calculate_statistics parcels).total_acreage) ∧
    ((calculate_statistics parcels).total_acreage =
      (parcels.map Parcel.acreage).sum) := by
  obtain ⟨h1, h2, h3, h4⟩ := statsStep_foldl parcels
    { total_parcels := parcels.length, solar_developed := 0, active_leases := 0,
      open_land := 0, total_acreage := 0, solar_acreage := 0, lease_acreage := 0,
      open_acreage := 0 }
  unfold calculate_statistics
  refine ⟨?_, ?_, ?_, ?_⟩ <;> simp_all

/-! ### Lemmas about the pagination loop -/

/-- C2: the fetch loop starts at offset 0; an empty page stops it with what
was accumulated; a page shorter than the page size is consumed and stops it
without a further request; a full page advances the offset by the page size
and continues.  Concretely, with page size 50, a run whose page 0 has exactly
50 features and whose page 1 is empty stops after page 1 (requests [0, 50])
with 50 parcels, and a run whose page 0 has 30 features stops at once
(requests [0]) with 30 parcels. -/
theorem C2_pagination (cfg : Config) (fetch : Nat → Option (List RawFeature))
    (fuel offset : Nat) (acc : List Parcel) (reqs : List Nat) :
    (scrape cfg fetch fuel = scrapeLoop cfg fetch fuel 0 [] []) ∧
    (fetch offset = some [] →
      scrapeLoop cfg fetch (fuel + 1) offset acc reqs =
        ScrapeResult.ok acc (reqs ++ [offset])) ∧
    (∀ features, fetch offset = some features → features ≠ [] →
      features.length < cfg.max_records →
      scrapeLoop cfg fetch (fuel + 1) offset acc reqs =
        ScrapeResult.ok (acc ++ features.map (parse_parcel cfg))
          (reqs ++ [offset])) ∧
    (∀ features, fetch offset = some features → features ≠ [] →
      cfg.max_records ≤ features.length →
      scrapeLoop cfg fetch (fuel + 1) offset acc reqs =
        scrapeLoop cfg fetch fuel (offset + cfg.max_records)
          (acc ++ features.map (parse_parcel cfg)) (reqs ++ [offset])) ∧
    (scrapeParcelCount (scrape demoConfig fetchFull50 2) = some 50 ∧
      scrapeReqs (scrape demoConfig fetchFull50 2) = [0, 50]) ∧
    (scrapeParcelCount (scrape demoConfig fetch30 2) = some 30 ∧
      scrapeReqs (scrape demoConfig fetch30 2) = [0]) := by
  refine ⟨rfl, fun h => ?_, fun features h hne hlt => ?_,
    fun features h hne hge => ?_, by decide, by decide⟩
  · unfold scrapeLoop
    rw [h]
    simp
  · unfold scrapeLoop
    rw [h]
    simp [List.isEmpty_iff, hne, hlt]
  · conv_lhs => rw [scrapeLoop]
    rw [h]
    simp [List.isEmpty_iff, hne, Nat.not_lt.mpr hge]

/-- Witness for C2: an always-empty page oracle stops the loop on its first
page with nothing accumulated and a single request at offset 0. -/
theorem C2_pagination_witness :
    scrapeLoop demoConfig (fun _ => some []) 1 0 [] [] =
      ScrapeResult.ok [] [0] :=
  (C2_pagination demoConfig (fun _ => some []) 0 0 [] []).2.1 rfl

/-! ### Lemmas about the plat grouping -/

theorem addToPlat_name (pl : Plat) (p : Parcel) :
    (addToPlat pl p).name = pl.name := rfl

theorem addToPlat_parcels (pl : Plat) (p : Parcel) :
    (addToPlat pl p).parcels = pl.parcels ++ [p] := rfl

theorem insertParcel_absent (p : Parcel) (plats : List Plat)
    (h : ∀ pl ∈ plats, pl.name ≠ p.subdivision) :
    insertParcel plats p = plats ++ [addToPlat (newPlat p.subdivision) p] := by
  induction plats with
  | nil => rfl
  | cons pl rest ih =>
    rw [insertParcel, if_neg (h pl (List.mem_cons_self pl rest)),
      ih (fun q hq => h q (List.mem_cons_of_mem pl hq))]
    rfl

theorem map_if_name_eq (n : String) (f : Plat → Plat) (l : List Plat)
    (h : ∀ pl ∈ l, pl.name ≠ n) :
    l.map (fun pl => if pl.name = n then f pl else pl) = l := by
  induction l with
  | nil => rfl
  | cons a rest ih =>
    rw [List.map_cons, if_neg (h a (List.mem_cons_self a rest)),
      ih (fun q hq => h q (List.mem_cons_of_mem a hq))]

theorem insertParcel_present (p : Parcel) (plats : List Plat)
    (hdist : List.Pairwise (fun a b => a.name ≠ b.name) plats)
    (pl0 : Plat) (hmem : pl0 ∈ plats) (hname : pl0.name = p.subdivision) :
    insertParcel plats p =
      plats.map
        (fun pl => if pl.name = p.subdivision then addToPlat pl p else pl) := by
  induction plats with
  | nil => cases hmem
  | cons a rest ih =>
    rw [List.pairwise_cons] at hdist
    by_cases ha : a.name = p.subdivision
    · rw [insertParcel, if_pos ha, List.map_cons, if_pos ha,
        map_if_name_eq _ _ rest
          (fun q hq hqn => hdist.1 q hq (ha.trans hqn.symm))]
    · have hmem2 : pl0 ∈ rest := by
        rcases List.mem_cons.mp hmem with h2 | h2
        · exact absurd (h2 ▸ hname) ha
        · exact h2
      rw [insertParcel, if_neg ha, List.map_cons, if_neg ha,
        ih hdist.2 hmem2]

theorem insertParcel_ok (consumed : List Parcel) (plats : List Plat)
    (p : Parcel) (h : GroupOK consumed plats) :
    GroupOK (consumed ++ [p]) (insertParcel plats p) := by
  obtain ⟨hdist, hcov, hok⟩ := h
  by_cases hex : ∀ pl ∈ plats, pl.name ≠ p.subdivision
  · rw [insertParcel_absent p plats hex]
    have hcne : ∀ q ∈ consumed, q.subdivision ≠ p.subdivision := by
      intro q hq hc
      obtain ⟨pl, hpl, hplname⟩ := hcov q hq
      exact hex pl hpl (hplname.trans hc)
    refine ⟨?_, ?_, ?_⟩
    · rw [List.pairwise_append]
      refine ⟨hdist, List.pairwise_singleton _ _, ?_⟩
      intro a ha b hb
      rw [List.mem_singleton] at hb
      subst hb
      simpa [addToPlat_name, newPlat] using hex a ha
    · intro q hq
      rcases List.mem_append.mp hq with hq | hq
      · obtain ⟨pl, hpl, hplname⟩ := hcov q hq
        exact ⟨pl, List.mem_append_left _ hpl, hplname⟩
      · rw [List.mem_singleton] at hq
        subst hq
        exact ⟨_, List.mem_append_right _ (List.mem_singleton_self _),
          by simp [addToPlat_name, newPlat]⟩
    · intro pl hpl
      rcases List.mem_append.mp hpl with hpl | hpl
      · obtain ⟨h1, h2, h3, h4⟩ := hok pl hpl
        refine ⟨h1, h2, h3, ?_⟩
        rw [List.filter_append, h4]
        have : (p.subdivision == pl.name) = false := by
          simpa using fun hc => hex pl hpl hc.symm
        simp [this]
      · rw [List.mem_singleton] at hpl
        subst hpl
        refine ⟨rfl, by simp [addToPlat, newPlat], by simp [addToPlat_parcels], ?_⟩
        have h1 : consumed.filter
            (fun q => q.subdivision == p.subdivision) = [] := by
          rw [List.filter_eq_nil_iff]
          intro q hq
          simpa using hcne q hq
        simp only [addToPlat_parcels, addToPlat_name, List.filter_append]
        simp [newPlat, h1]
  · push_neg at hex
    obtain ⟨pl0, hmem0, hname0⟩ := hex
    rw [insertParcel_present p plats hdist pl0 hmem0 hname0]
    have hnamef : ∀ pl : Plat,
        ((fun pl => if pl.name = p.subdivision then addToPlat pl p else pl)
          pl).name = pl.name := by
      intro pl
      by_cases hc : pl.name = p.subdivision <;> simp [hc, addToPlat_name]
    refine ⟨?_, ?_, ?_⟩
    · exact List.Pairwise.map _
        (fun a b hab => by rw [hnamef a, hnamef b]; exact hab) hdist
    · intro q hq
      rcases List.mem_append.mp hq with hq | hq
      · obtain ⟨pl, hpl, hplname⟩ := hcov q hq
        exact ⟨_, List.mem_map_of_mem _ hpl, (hnamef pl).trans hplname⟩
      · rw [List.mem_singleton] at hq
        subst hq
        exact ⟨_, List.mem_map_of_mem _ hmem0, (hnamef pl0).trans hname0⟩
    · intro pl2 hpl2
      obtain ⟨pl, hpl, rfl⟩ := List.mem_map.mp hpl2
      obtain ⟨h1, h2, h3, h4⟩ := hok pl hpl
      by_cases hc : pl.name = p.subdivision
      · rw [if_pos hc]
        refine ⟨by simp [addToPlat, h1], ?_, by simp [addToPlat_parcels], ?_⟩
        · simp [addToPlat, h2]
        · rw [addToPlat_parcels, addToPlat_name, List.filter_append, h4]
          have : (p.subdivision == pl.name) = true := by simp [hc.symm]
          simp [this]
      · rw [if_neg hc]
        refine ⟨h1, h2, h3, ?_⟩
        rw [List.filter_append, h4]
        have : (p.subdivision == pl.name) = false := by
          simpa using fun h => hc h.symm
        simp [this]

theorem groupFold_ok (ps : List Parcel) :
    ∀ consumed plats, GroupOK consumed plats →
      GroupOK (consumed ++ ps) (ps.foldl insertParcel plats) := by
  induction ps with
  | nil => intro consumed plats h; simpa using h
  | cons p rest ih =>
    intro consumed plats h
    have h3 := ih (consumed ++ [p]) _ (insertParcel_ok consumed plats p h)
    simpa using h3

theorem group_by_plat_ok (parcels : List Parcel) :
    GroupOK parcels (group_by_plat parcels) := by
  have h := groupFold_ok parcels [] [] ⟨List.Pairwise.nil, by simp, by simp⟩
  simpa [group_by_plat] using h

/-- C5: `group_by_plat` produces pairwise-distinct subdivision names covering
every parcel's subdivision (so exactly one plat per distinct name), and each
plat's `total_parcels` is the length of its member list, its `total_acreage`
is exactly (over ℚ) the sum of its members' acreage, every member belongs to
the plat's subdivision, and the member list is the subsequence of the input
parcels with that subdivision, in their original order. -/
theorem C5_group_by_plat (parcels : List Parcel) :
    List.Pairwise (fun a b => a.name ≠ b.name) (group_by_plat parcels) ∧
    (∀ p ∈ parcels, ∃ pl ∈ group_by_plat parcels,
      pl.name = p.subdivision) ∧
    (∀ pl ∈ group_by_plat parcels,
      pl.total_parcels = pl.parcels.length ∧
      pl.total_acreage = (pl.parcels.map Parcel.acreage).sum ∧
      (∀ p ∈ pl.parcels, p.subdivision = pl.name) ∧
      pl.parcels ≠ [] ∧
      pl.parcels = parcels.filter (fun q => q.subdivision == pl.name)) := by
  obtain ⟨hdist, hcov, hok⟩ := group_by_plat_ok parcels
  refine ⟨hdist, hcov, fun pl hpl => ?_⟩
  obtain ⟨h1, h2, h3, h4⟩ := hok pl hpl
  refine ⟨h1, h2, fun p hp => ?_, h3, h4⟩
  rw [h4] at hp
  simpa using (List.mem_filter.mp hp).2

/-- Witness for C5: grouping two parcels of the same subdivision and one of
another yields one plat per name, with the claimed count, sum and member
order. -/
theorem C5_group_by_plat_witness :
    ∃ pl ∈ group_by_plat
      [parse_parcel demoConfig
        { properties := [("SUBDIVISION", PyVal.str "Oak Ridge")],
          geometry := Option.none },
       parse_parcel demoConfig { properties := [], geometry := Option.none },
       parse_parcel demoConfig
        { properties := [("SUBDIVISION", PyVal.str "Oak Ridge")],
          geometry := Option.none }],
      pl.name = (parse_parcel demoConfig
        { properties := [("SUBDIVISION", PyVal.str "Oak Ridge")],
          geometry := Option.none }).subdivision :=
  (C5_group_by_plat
    [parse_parcel demoConfig
      { properties := [("SUBDIVISION", PyVal.str "Oak Ridge")],
        geometry := Option.none },
     parse_parcel demoConfig { properties := [], geometry := Option.none },
     parse_parcel demoConfig
      { properties := [("SUBDIVISION", PyVal.str "Oak Ridge")],
        geometry := Option.none }]).2.1
    (parse_parcel demoConfig
      { properties := [("SUBDIVISION", PyVal.str "Oak Ridge")],
        geometry := Option.none })
    (List.mem_cons_self _ _)

/-! ### Lemmas about the retry loop -/

theorem queryGo_attempts_le (outcomes : Nat → AttemptOutcome) (total : Nat) :
    ∀ r attempt, (queryGo outcomes total attempt r).attemptsMade ≤ r := by
  intro r
  induction r with
  | zero => intro attempt; simp [queryGo]
  | succ n ih =>
    intro attempt
    unfold queryGo
    cases outcomes attempt <;> simp <;> exact ih (attempt + 1)

theorem queryGo_allFail (outcomes : Nat → AttemptOutcome) (total : Nat) :
    ∀ r attempt, attempt + r = total →
    (∀ i, attempt ≤ i → i < total → isFailure (outcomes i) = true) →
    queryGo outcomes total attempt r =
      { result := Option.none, attemptsMade := r,
        sleeps := ((List.range' attempt r).filter
          (fun i => (outcomes i == AttemptOutcome.netErr) &&
            decide (i + 1 < total))).map (2 ^ ·) } := by
  intro r
  induction r with
  | zero => intro attempt _ _; rfl
  | succ n ih =>
    intro attempt htot hf
    have hattempt : attempt < total := by omega
    have hrest := ih (attempt + 1) (by omega)
      (fun i h1 h2 => hf i (by omega) h2)
    unfold queryGo
    cases ho : outcomes attempt with
    | httpOk features =>
      exact absurd (hf attempt le_rfl hattempt) (by simp [ho, isFailure])
    | httpErr code => simp [hrest, List.range'_succ, ho]
    | netErr =>
      simp only [hrest, ho, List.range'_succ, List.filter_cons]
      by_cases hlt : attempt + 1 < total
      · simp [hlt]
      · simp [hlt]

/-- Counterexample to C3 as stated: with `retry_attempts = 3` and every
attempt failing with HTTP 500 (a non-2xx status), the code performs no
backoff sleep at all, while the claim requires a `2^attempt`-second wait
between the consecutive attempts (sleeps `[2^0, 2^1]`). -/
theorem C3_counterexample :
    (query_arcgis_layer 3 (fun _ => AttemptOutcome.httpErr 500)).result =
      Option.none ∧
    (query_arcgis_layer 3 (fun _ => AttemptOutcome.httpErr 500)).attemptsMade =
      3 ∧
    (query_arcgis_layer 3 (fun _ => AttemptOutcome.httpErr 500)).sleeps = [] ∧
    (query_arcgis_layer 3 (fun _ => AttemptOutcome.httpErr 500)).sleeps ≠
      [2 ^ 0, 2 ^ 1] := by decide

/-- C3 as amended: `query_arcgis_layer` makes at most the configured number of
attempts; both a non-2xx HTTP status and a transport error count as failed
attempts; Between consecutive attempts it waits `2^attempt` seconds only when
the attempt failed with a transport error (an HTTP-status failure retries
immediately); when all N attempts fail (e.g. exactly 3 with N = 3) it returns
the failure signal, and a page whose fetch fails makes the scrape loop return
failure. -/
theorem C3_retry_amended (retry : Nat) (outcomes : Nat → AttemptOutcome) :
    ((query_arcgis_layer retry outcomes).attemptsMade ≤ retry) ∧
    ((∀ i, i < retry → isFailure (outcomes i) = true) →
      (query_arcgis_layer retry outcomes).result = Option.none ∧
      (query_arcgis_layer retry outcomes).attemptsMade = retry ∧
      (query_arcgis_layer retry outcomes).sleeps =
        ((List.range retry).filter
          (fun i => (outcomes i == AttemptOutcome.netErr) &&
            decide (i + 1 < retry))).map (2 ^ ·)) ∧
    (∀ cfg fetch fuel offset acc reqs, fetch offset = Option.none →
      scrapeLoop cfg fetch (fuel + 1) offset acc reqs =
        ScrapeResult.failed (reqs ++ [offset])) := by
  refine ⟨queryGo_attempts_le outcomes retry retry 0, fun hf => ?_,
    fun cfg fetch fuel offset acc reqs h => ?_⟩
  · have h := queryGo_allFail outcomes retry retry 0 (by omega)
      (fun i _ h2 => hf i h2)
    rw [query_arcgis_layer, h]
    simp [List.range_eq_range']
  · unfold scrapeLoop
    rw [h]

/-- Witness for C3 as amended: three attempts fail as HTTP 500, transport
error, HTTP 500; the query fails after exactly 3 attempts with a single
backoff sleep of `2^1` seconds (after the transport-error attempt only). -/
theorem C3_retry_amended_witness :
    (query_arcgis_layer 3
      (fun i => if i = 1 then AttemptOutcome.netErr
        else AttemptOutcome.httpErr 500)).result = Option.none ∧
    (query_arcgis_layer 3
      (fun i => if i = 1 then AttemptOutcome.netErr
        else AttemptOutcome.httpErr 500)).attemptsMade = 3 ∧
    (query_arcgis_layer 3
      (fun i => if i = 1 then AttemptOutcome.netErr
        else AttemptOutcome.httpErr 500)).sleeps = [2] := by
  have h := (C3_retry_amended 3
    (fun i => if i = 1 then AttemptOutcome.netErr
      else AttemptOutcome.httpErr 500)).2.1 (by decide)
  exact ⟨h.1, h.2.1, by rw [h.2.2]; decide⟩

/-! ### No partial export -/

/-- C8: a failing page fetch makes the loop return the failure signal; a
failed scrape gives exit code 1 with no output files written; exports (all
three files) happen only on a scrape that terminated by reaching its natural
last page, with exit code 0. -/
theorem C8_no_partial_export (cfg : Config)
    (fetch : Nat → Option (List RawFeature)) (fuel : Nat) :
    (∀ fuel2 offset acc reqs, fetch offset = Option.none →
      scrapeLoop cfg fetch (fuel2 + 1) offset acc reqs =
        ScrapeResult.failed (reqs ++ [offset])) ∧
    (∀ reqs, scrape cfg fetch fuel = ScrapeResult.failed reqs →
      mainRun cfg fetch fuel = some (1, [])) ∧
    (∀ parcels reqs, scrape cfg fetch fuel = ScrapeResult.ok parcels reqs →
      mainRun cfg fetch fuel =
        some (0, ["bosque_parcels_<ts>.json", "bosque_parcels_<ts>.geojson",
                  "bosque_plat_summary_<ts>.csv"])) := by
  refine ⟨fun fuel2 offset acc reqs h => ?_, fun reqs h => ?_,
    fun parcels reqs h => ?_⟩
  · unfold scrapeLoop
    rw [h]
  · unfold mainRun
    rw [h]
  · unfold mainRun
    rw [h]

/-- Witness for C8: a fetch oracle that always fails makes the run exit with
code 1 and write no files. -/
theorem C8_no_partial_export_witness :
    mainRun demoConfig (fun _ => Option.none) 1 = some (1, []) :=
  (C8_no_partial_export demoConfig (fun _ => Option.none) 1).2.1 [0]
    (by decide)

/-! ### The viewer's /api/parcels endpoint -/

theorem maxByMtime_go (l : List FileEntry) :
    ∀ b, ∃ f, l.foldl pickLater (some b) = some f ∧ (f = b ∨ f ∈ l) ∧
      b.mtime ≤ f.mtime ∧ ∀ g ∈ l, g.mtime ≤ f.mtime := by
  induction l with
  | nil => exact fun b => ⟨b, rfl, Or.inl rfl, le_rfl, by simp⟩
  | cons g l ih =>
    intro b
    by_cases hlt : b.mtime < g.mtime
    · obtain ⟨f, hf, hmem, hle, hall⟩ := ih g
      refine ⟨f, ?_, ?_, ?_, ?_⟩
      · simpa [pickLater, hlt] using hf
      · rcases hmem with h | h
        · exact Or.inr (h ▸ List.mem_cons_self g l)
        · exact Or.inr (List.mem_cons_of_mem g h)
      · exact le_of_lt (lt_of_lt_of_le hlt hle)
      · intro x hx
        rcases List.mem_cons.mp hx with h | h
        · exact h ▸ hle
        · exact hall x h
    · obtain ⟨f, hf, hmem, hle, hall⟩ := ih b
      refine ⟨f, ?_, hmem.imp id (List.mem_cons_of_mem g), hle, ?_⟩
      · simpa [pickLater, hlt] using hf
      · intro x hx
        rcases List.mem_cons.mp hx with h | h
        · exact h ▸ le_trans (Nat.le_of_not_lt hlt) hle
        · exact hall x h

theorem maxByMtime_spec (files : List FileEntry) (f : FileEntry)
    (h : maxByMtime files = some f) :
    f ∈ files ∧ ∀ g ∈ files, g.mtime ≤ f.mtime := by
  cases files with
  | nil => simp [maxByMtime] at h
  | cons a l =>
    obtain ⟨f2, hf2, hmem, hle, hall⟩ := maxByMtime_go l a
    rw [maxByMtime, List.foldl_cons] at h
    have : l.foldl pickLater (some a) = some f := by simpa [pickLater] using h
    rw [this] at hf2
    obtain rfl : f2 = f := by injection hf2 with h2; exact h2.symm
    refine ⟨?_, ?_⟩
    · rcases hmem with h2 | h2
      · exact h2 ▸ List.mem_cons_self a l
      · exact List.mem_cons_of_mem a h2
    · intro g hg
      rcases List.mem_cons.mp hg with h2 | h2
      · exact h2 ▸ hle
      · exact hall g h2

theorem maxByMtime_ne_nil (files : List FileEntry) (h : files ≠ []) :
    ∃ f, maxByMtime files = some f := by
  cases files with
  | nil => exact absurd rfl h
  | cons a l =>
    obtain ⟨f, hf, _, _, _⟩ := maxByMtime_go l a
    exact ⟨f, by simpa [maxByMtime, pickLater] using hf⟩

/-- Counterexample to C9 as stated: with an older `bosque_parcels_*.geojson`
export and a newer `test_parcels_*.geojson` export both present,
`GET /api/parcels` returns the older bosque file, not the most recently
modified GeoJSON export. -/
theorem C9_counterexample :
    get_parcels (some
      [{ name := "bosque_parcels_20240101_000000.geojson", mtime := 1,
         content := "OLD" },
       { name := "test_parcels_20240601_000000.geojson", mtime := 2,
         content := "NEW" }]) = ApiResponse.ok "OLD" ∧
    claimed_get_parcels (some
      [{ name := "bosque_parcels_20240101_000000.geojson", mtime := 1,
         content := "OLD" },
       { name := "test_parcels_20240601_000000.geojson", mtime := 2,
         content := "NEW" }]) = ApiResponse.ok "NEW" ∧
    get_parcels (some
      [{ name := "bosque_parcels_20240101_000000.geojson", mtime := 1,
         content := "OLD" },
       { name := "test_parcels_20240601_000000.geojson", mtime := 2,
         content := "NEW" }]) ≠
    claimed_get_parcels (some
      [{ name := "bosque_parcels_20240101_000000.geojson", mtime := 1,
         content := "OLD" },
       { name := "test_parcels_20240601_000000.geojson", mtime := 2,
         content := "NEW" }]) := by decide

/-- C9 as amended: `GET /api/parcels` serves the content of the most recently
modified `bosque_parcels_*.geojson` file when at least one exists, falling
back to the most recently modified `test_parcels_*.geojson` file otherwise
(first maximal modification time on ties), and answers 404 with the
explanatory error body when the output directory is missing or holds no
matching file. -/
theorem C9_parcels_amended (files : List FileEntry) (f : FileEntry) :
    (get_parcels Option.none =
      ApiResponse.notFound "No parcel data available"
        "Run scraper.py or test_scraper.py first to generate data") ∧
    (get_latest_geojson (some files) =
      maxByMtime (if (files.filter bosqueGlob).isEmpty then
        files.filter testGlob else files.filter bosqueGlob)) ∧
    ((if (files.filter bosqueGlob).isEmpty then files.filter testGlob
        else files.filter bosqueGlob) = [] →
      get_parcels (some files) =
        ApiResponse.notFound "No parcel data available"
          "Run scraper.py or test_scraper.py first to generate data") ∧
    (maxByMtime (if (files.filter bosqueGlob).isEmpty then
        files.filter testGlob else files.filter bosqueGlob) = some f →
      f ∈ (if (files.filter bosqueGlob).isEmpty then files.filter testGlob
        else files.filter bosqueGlob) ∧
      (∀ g ∈ (if (files.filter bosqueGlob).isEmpty then files.filter testGlob
        else files.filter bosqueGlob), g.mtime ≤ f.mtime) ∧
      get_parcels (some files) = ApiResponse.ok f.content) := by
  have hlatest : get_latest_geojson (some files) =
      maxByMtime (if (files.filter bosqueGlob).isEmpty then
        files.filter testGlob else files.filter bosqueGlob) := by
    unfold get_latest_geojson
    by_cases h1 : (files.filter bosqueGlob).isEmpty
    · by_cases h2 : (files.filter testGlob).isEmpty
      · simp [h1, h2, List.isEmpty_iff.mp h2, maxByMtime]
      · simp [h1, h2]
    · simp [h1]
  refine ⟨rfl, hlatest, fun h => ?_, fun h => ?_⟩
  · rw [get_parcels, hlatest, h]
    rfl
  · obtain ⟨hmem, hall⟩ := maxByMtime_spec _ f h
    exact ⟨hmem, hall, by rw [get_parcels, hlatest, h]⟩

/-- Witness for C9 as amended: on a directory holding one bosque export and a
newer test export, the endpoint serves the bosque file's content. -/
theorem C9_parcels_amended_witness :
    get_parcels (some
      [{ name := "bosque_parcels_20240101_000000.geojson", mtime := 1,
         content := "OLD" },
       { name := "test_parcels_20240601_000000.geojson", mtime := 2,
         content := "NEW" }]) = ApiResponse.ok "OLD" :=
  ((C9_parcels_amended
      [{ name := "bosque_parcels_20240101_000000.geojson", mtime := 1,
         content := "OLD" },
       { name := "test_parcels_20240601_000000.geojson", mtime := 2,
         content := "NEW" }]
      { name := "bosque_parcels_20240101_000000.geojson", mtime := 1,
        content := "OLD" }).2.2.2 (by decide)).2.2
